import Mathlib

/-!
Verification of the gguf-download tool (src/down-gguf.py).

The development shallowly embeds the two core components of the script:

* `Gguf.get_model_details` — the manifest resolver (source lines 32-122),
  modelled over a typed manifest/config data model with network responses
  supplied by oracles (`ManifestFetch`, `ConfigFetch`).
* `Gguf.download_model` — the download orchestrator (source lines 161-243),
  modelled over an explicit file-system state (`FS`, a list of existing
  paths) plus an oracle for transport outcomes, and
  `Gguf.main_download_phase` — the overwrite gate of `main`
  (source lines 278-293).

Every observable action (network request, console print, process spawn,
file-system read/write/delete) is recorded in an `Effect` trace so that
frame properties and never-invoked properties can be stated.
-/

namespace Gguf

instance exceptDecEq {ε α : Type} [DecidableEq ε] [DecidableEq α] :
    DecidableEq (Except ε α) := fun x y =>
  match x, y with
  | .ok a, .ok b =>
      if h : a = b then .isTrue (by rw [h])
      else .isFalse (fun hc => h (by injection hc))
  | .error a, .error b =>
      if h : a = b then .isTrue (by rw [h])
      else .isFalse (fun hc => h (by injection hc))
  | .ok _, .error _ => .isFalse (fun hc => Except.noConfusion hc)
  | .error _, .ok _ => .isFalse (fun hc => Except.noConfusion hc)

/-- Characters-as-lists model of the Python string helpers used by the
script.  `stripAlg s` is Python `s.split(":")[-1]`: the suffix of `s`
after its last colon (the whole string when no colon occurs). -/
def stripAlg (s : String) : String :=
  String.mk ((s.data.reverse.takeWhile (fun c => c ≠ ':')).reverse)

/-- Python `pat in s` (substring containment). -/
def containsSubstr (s pat : String) : Bool :=
  (List.range (s.data.length + 1)).any (fun i => pat.data.isPrefixOf (s.data.drop i))

/-- Python `s.lower()`. -/
def lowerStr (s : String) : String := String.mk (s.data.map Char.toLower)

/-- Python `s.upper()`. -/
def upperStr (s : String) : String := String.mk (s.data.map Char.toUpper)

/-- Python `s.strip()`. -/
def stripEnds (s : String) : String :=
  String.mk (((s.data.dropWhile Char.isWhitespace).reverse.dropWhile Char.isWhitespace).reverse)

/-- Python `s.startswith(p)`. -/
def strStartsWith (s p : String) : Bool := p.data.isPrefixOf s.data

/-- Python truthiness of the `model_digest` variable, which is either
`None` or a string: `not model_digest` holds for `None` and `""`. -/
def pyFalsy (o : Option String) : Bool :=
  match o with
  | none => true
  | some s => decide (s = "")

/-- Observable actions of the script, recorded in traces. -/
inductive Effect where
  | netGet (url : String)
  | printMsg (msg : String)
  | exec (argv : List String)
  | fsCheck (path : String)
  | fsWrite (path : String)
  | fsDel (path : String)
deriving DecidableEq

/-- A manifest layer: `mediaType` and `digest` are optional JSON keys. -/
structure Layer where
  mediaType : Option String
  digest : Option String
deriving DecidableEq

/-- The `config` object of a manifest (optional `digest` key). -/
structure ManifestConfig where
  digest : Option String
deriving DecidableEq

/-- A manifest document: optional `layers` list and optional `config`. -/
structure Manifest where
  layers : Option (List Layer)
  config : Option ManifestConfig
deriving DecidableEq

/-- The parsed config blob (source lines 63-72): the keys the script
reads.  `quantization` stands for `general.quantization` (absent when
either key is missing); `diff_ids` stands for `rootfs.diff_ids`. -/
structure ConfigBlob where
  model_family : Option String
  model_type : Option String
  file_type : Option String
  quantization : Option String
  diff_ids : Option (List String)
deriving DecidableEq

/-- The mutable `config_data` dictionary of the source. -/
structure ConfigData where
  model_family : String
  model_type : String
  file_type : String
deriving DecidableEq

/-- The dictionary returned by `get_model_details` (source lines 109-114). -/
structure ModelDetails where
  digest : String
  model_family : String
  model_type : String
  file_type : String
deriving DecidableEq

/-- Oracle for the manifest request (source lines 41-43).
`httpError is404` covers a transport failure or a non-2xx status raised
by `raise_for_status`; `badJson` a 2xx body that is not valid JSON. -/
inductive ManifestFetch where
  | ok (m : Manifest)
  | httpError (is404 : Bool)
  | badJson
deriving DecidableEq

/-- Oracle for the config-blob request (source lines 60-63). -/
inductive ConfigFetch where
  | ok (cfg : ConfigBlob)
  | httpError (is404 : Bool)
  | badJson
deriving DecidableEq

/-- Outcome of `get_model_details`, following which handler of the
source (lines 115-122) converts the exception. -/
inductive DetailsError where
  | notFound404
  | requestFailed
  | manifestNotJson
  | structureError (msg : String)
deriving DecidableEq

def manifestUrl (model_name model_params : String) : String :=
  "https://registry.ollama.ai/v2/library/" ++ model_name ++ "/manifests/" ++ model_params

def configUrl (model_name config_digest_full : String) : String :=
  "https://registry.ollama.ai/v2/library/" ++ model_name ++ "/blobs/" ++ config_digest_full

def modelMediaType : String := "application/vnd.ollama.image.model"

def isModelLayer (l : Layer) : Bool := l.mediaType = some modelMediaType

def noDigestMsg : String := "Could not determine model data digest from the manifest."

def firstLayerNoDigestMsg : String :=
  "Could not find model data in manifest; first layer has no digest."

def fallbackWarning : String :=
  "Warning: Using digest of the first layer from manifest as fallback."

def defaultQuantWarning : String := "Warning: Defaulting quantization to Q4_0."

/-- Source lines 52-55: scan the layers for the first model-weights
layer.  A matching layer without a `digest` key raises `KeyError`
(handled at line 121 of the source). -/
def primaryScan (manifest : Manifest) : Except String (Option String) :=
  match (manifest.layers.getD []).find? isModelLayer with
  | some layer =>
      match layer.digest with
      | some d => .ok (some (stripAlg d))
      | none => .error "KeyError: digest"
  | none => .ok none

/-- Source lines 63-72: fold a parsed config blob into `config_data`,
returning the updated dictionary and the digest extracted from
`rootfs.diff_ids` (if that list is present and non-empty). -/
def applyConfig (cfg : ConfigBlob) (cd : ConfigData) : ConfigData × Option String :=
  let fam := cfg.model_family.getD cd.model_family
  let ty := cfg.model_type.getD cd.model_type
  let ft0 := cfg.file_type.getD cd.file_type
  let ft :=
    match cfg.quantization with
    | some q => if ft0 = "unknown_quant" ∨ ft0 = "" then q else ft0
    | none => ft0
  let dg :=
    match cfg.diff_ids with
    | some (d :: _) => some (stripAlg d)
    | _ => none
  (⟨fam, ty, ft⟩, dg)

/-- Source lines 58-76: fetch and process the config blob.  The fetch
and its `raise_for_status` (lines 60-61) sit OUTSIDE the inner
`try` block of lines 62-76, so an HTTP failure propagates to the outer
handler (lines 115-118) and is fatal; only a JSON parse failure of the
body is downgraded to a warning. -/
def configPhase (model_name config_digest_full : String) (cf : ConfigFetch)
    (cd : ConfigData) : Except DetailsError (ConfigData × Option String) × List Effect :=
  let url := configUrl model_name config_digest_full
  match cf with
  | .httpError is404 =>
      (.error (if is404 then .notFound404 else .requestFailed), [.netGet url])
  | .badJson =>
      (.ok (cd, none),
       [.netGet url, .printMsg ("Warning: Could not parse config blob from " ++ url ++ " as JSON.")])
  | .ok cfg => (.ok (applyConfig cfg cd), [.netGet url])

/-- Source lines 57-76: the secondary (config blob) digest source,
entered only when no digest was found yet and the manifest carries a
config digest. -/
def secondaryPhase (model_name : String) (manifest : Manifest) (cf : ConfigFetch)
    (cd : ConfigData) (digest0 : Option String) :
    Except DetailsError (ConfigData × Option String) × List Effect :=
  if pyFalsy digest0 then
    match manifest.config with
    | some mc =>
        match mc.digest with
        | some cdg =>
            match configPhase model_name cdg cf cd with
            | (.error e, effs) => (.error e, effs)
            | (.ok (cd1, dg), effs) => (.ok (cd1, dg <|> digest0), effs)
        | none => (.ok (cd, digest0), [])
    | none => (.ok (cd, digest0), [])
  else (.ok (cd, digest0), [])

/-- Source lines 78-83: the first-layer fallback. -/
def tertiaryPhase (manifest : Manifest) (digest1 : Option String) :
    Except String (Option String) × List Effect :=
  if pyFalsy digest1 then
    match manifest.layers with
    | some (l :: _) =>
        match l.digest with
        | some d => (.ok (some (stripAlg d)), [.printMsg fallbackWarning])
        | none => (.error firstLayerNoDigestMsg, [])
    | _ => (.ok digest1, [])
  else (.ok digest1, [])

/-- Source lines 90-95: the ordered quantization pattern table (a
Python dict literal; insertion order is iteration order). -/
def quant_patterns : List (String × List String) :=
  [("q4_0", ["q4_0"]), ("q4_1", ["q4_1"]), ("q5_0", ["q5_0"]), ("q5_1", ["q5_1"]),
   ("q8_0", ["q8_0"]), ("q2_k", ["q2_k"]), ("q3_k_s", ["q3_k_s"]), ("q3_k_m", ["q3_k_m"]),
   ("q3_k_l", ["q3_k_l"]), ("q4_k_s", ["q4_k_s"]), ("q4_k_m", ["q4_k_m"]), ("q5_k_s", ["q5_k_s"]),
   ("q5_k_m", ["q5_k_m"]), ("q6_k", ["q6_k"]), ("fp16", ["f16", "fp16"])]

/-- Source lines 97-99: does any pattern of a table entry occur in the
lower-cased tag? -/
def entryMatches (tagLower : String) (e : String × List String) : Bool :=
  e.2.any (fun p => containsSubstr tagLower p)

/-- The first table entry (in order) one of whose patterns occurs in
the lower-cased tag. -/
def findQuantCode (tagLower : String) : Option String :=
  (quant_patterns.find? (entryMatches tagLower)).map (fun e => e.1)

/-- Source lines 88-107: quantization inference from the tag, run only
while `file_type` is the unknown sentinel or empty. -/
def quantInfer (model_params : String) (cd : ConfigData) : ConfigData × List Effect :=
  if cd.file_type = "unknown_quant" ∨ cd.file_type = "" then
    match findQuantCode (lowerStr model_params) with
    | some q => ({ cd with file_type := upperStr q }, [])
    | none => ({ cd with file_type := "Q4_0" }, [.printMsg defaultQuantWarning])
  else (cd, [])

/-- Source lines 85-86 and 88-114: final digest check, quantization
inference and result assembly. -/
def finalize (model_params : String) (digest2 : Option String) (cd : ConfigData) :
    Except String ModelDetails × List Effect :=
  match digest2 with
  | none => (.error noDigestMsg, [])
  | some v =>
      if v = "" then (.error noDigestMsg, [])
      else
        match quantInfer model_params cd with
        | (cd2, effs) => (.ok ⟨v, cd2.model_family, cd2.model_type, cd2.file_type⟩, effs)

/-- Source lines 32-122: the manifest resolver.  Network responses are
supplied by the oracles `mf` (manifest request) and `cf` (config-blob
request, consulted only if that request is actually made). -/
def get_model_details (model_name model_params : String) (mf : ManifestFetch)
    (cf : ConfigFetch) : Except DetailsError ModelDetails × List Effect :=
  let murl := manifestUrl model_name model_params
  match mf with
  | .httpError is404 =>
      (.error (if is404 then .notFound404 else .requestFailed), [.netGet murl])
  | .badJson => (.error .manifestNotJson, [.netGet murl])
  | .ok manifest =>
      let cd0 : ConfigData := ⟨model_name, model_params, "unknown_quant"⟩
      match primaryScan manifest with
      | .error msg => (.error (.structureError msg), [.netGet murl])
      | .ok digest0 =>
          match secondaryPhase model_name manifest cf cd0 digest0 with
          | (.error e, effs1) => (.error e, .netGet murl :: effs1)
          | (.ok (cd1, digest1), effs1) =>
              match tertiaryPhase manifest digest1 with
              | (.error msg, effs2) =>
                  (.error (.structureError msg), .netGet murl :: (effs1 ++ effs2))
              | (.ok digest2, effs2) =>
                  match finalize model_params digest2 cd1 with
                  | (.error msg, effs3) =>
                      (.error (.structureError msg), .netGet murl :: (effs1 ++ effs2 ++ effs3))
                  | (.ok det, effs3) =>
                      (.ok det, .netGet murl :: (effs1 ++ effs2 ++ effs3))

/-- The file system: the list of paths that currently exist. -/
abbrev FS := List String

/-- Creating or truncating a file (`open(filename, "wb")`, or an
external tool writing its output file). -/
def fsAdd (p : String) (fs : FS) : FS := if p ∈ fs then fs else p :: fs

/-- `os.remove(p)` on the modelled file system. -/
def fsRemove (p : String) (fs : FS) : FS := fs.filter (fun q => decide (q ≠ p))

/-- `os.path.exists(p)`. -/
def fsHas (p : String) (fs : FS) : Bool := decide (p ∈ fs)

/-- Source lines 179, 203 and 238: `if os.path.exists(filename):` then
`os.remove(filename)` with any `OSError` swallowed.  `removeOk` is the
oracle for whether the removal itself succeeds; on failure the file
stays but no exception escapes. -/
def removeIfExists (path : String) (removeOk : Bool) (fs : FS) : FS × List Effect :=
  if fsHas path fs then
    if removeOk then (fsRemove path fs, [.fsCheck path, .fsDel path])
    else (fs, [.fsCheck path, .fsDel path])
  else (fs, [.fsCheck path])

/-- Outcome oracle for the streaming (`requests`) backend, source
lines 206-241.  `preFail` is a `RequestException` from the initial
`requests.get` or `raise_for_status`; `jsonBody` a 2xx response whose
content type is JSON (`some m` when the error body parses to a message,
`none` when it does not); `midStreamFail` a `RequestException` thrown
during the chunk loop, after the destination file was opened and
partially written. -/
inductive ReqOutcome where
  | preFail (is404 : Bool)
  | jsonBody (errMsg : Option String)
  | midStreamFail
  | streamOk
deriving DecidableEq

/-- Outcome oracle for an external tool run via `subprocess.run`:
`exit code` (0 = success, `check=True` raises `CalledProcessError`
otherwise), or the binary being absent (`FileNotFoundError`). -/
inductive ExtOutcome where
  | exit (code : Int)
  | binMissing
deriving DecidableEq

/-- Environment oracle for one `download_model` invocation.
`wroteFile` records whether a failing external tool had already
created the output file when it died. -/
structure DlOracle where
  req : ReqOutcome
  ext : ExtOutcome
  wroteFile : Bool
  removeOk : Bool
deriving DecidableEq

/-- The exceptions `download_model` can raise (source lines 169-243). -/
inductive DlError where
  | toolNotFound (tool : String)
  | toolFailed (tool : String) (code : Int)
  | serverJsonError (msg : String)
  | serverJsonUnparsable
  | blobNotFound404
  | requestFailed
  | unknownChoice (choice : String)
deriving DecidableEq

/-- Source line 163: re-prefix the digest unless already prefixed. -/
def blob_digest_arg (digest_hash : String) : String :=
  if strStartsWith digest_hash "sha256:" then digest_hash else "sha256:" ++ digest_hash

/-- Source line 164: the blob URL the chosen backend fetches. -/
def blobUrl (model_name digest_hash : String) : String :=
  "https://registry.ollama.ai/v2/library/" ++ model_name ++ "/blobs/" ++ blob_digest_arg digest_hash

/-- Source line 170.  `NUM_CONNECTIONS_EXTERNAL = 8`. -/
def axelCmd (filename url : String) : List String :=
  ["axel", "-n", "8", "-a", "-o", filename, url]

/-- Source lines 183-193.  Paths are modelled as flat names, so
`os.path.dirname(filename) or "."` is `"."` and the basename is
`filename` itself. -/
def aria2cCmd (filename url : String) (user_confirmed_overwrite : Bool) : List String :=
  ["aria2c", "-x", "8", "-s", "8", "--console-log-level=warn", "-d", ".", "-o", filename]
    ++ (if user_confirmed_overwrite then ["--allow-overwrite=true"] else []) ++ [url]

/-- Source lines 161-243: the download orchestrator.  Returns the
outcome (`()` for the `return True` paths, an exception otherwise),
the resulting file system, and the effect trace. -/
def download_model (model_name digest_hash filename downloader_choice : String)
    (user_confirmed_overwrite : Bool) (oracle : DlOracle) (fs : FS) :
    Except DlError Unit × FS × List Effect :=
  let url := blobUrl model_name digest_hash
  let pre : List Effect :=
    [.printMsg ("Attempting to download using: " ++ downloader_choice),
     .printMsg ("Downloading from: " ++ url)]
  if downloader_choice = "axel" then
    let cmd := axelCmd filename url
    match oracle.ext with
    | .binMissing => (.error (.toolNotFound "axel"), fs, pre ++ [.exec cmd])
    | .exit code =>
        if code = 0 then (.ok (), fsAdd filename fs, pre ++ [.exec cmd])
        else
          let fs1 := if oracle.wroteFile then fsAdd filename fs else fs
          match removeIfExists filename oracle.removeOk fs1 with
          | (fs2, effs) => (.error (.toolFailed "axel" code), fs2, pre ++ [.exec cmd] ++ effs)
  else if downloader_choice = "aria2c" then
    let cmd := aria2cCmd filename url user_confirmed_overwrite
    match oracle.ext with
    | .binMissing => (.error (.toolNotFound "aria2c"), fs, pre ++ [.exec cmd])
    | .exit code =>
        if code = 0 then (.ok (), fsAdd filename fs, pre ++ [.exec cmd])
        else
          let fs1 := if oracle.wroteFile then fsAdd filename fs else fs
          match
            if fsHas filename fs1 ∧ code ≠ 0 then
              (if oracle.removeOk then fsRemove filename fs1 else fs1,
               [Effect.fsCheck filename, Effect.fsDel filename])
            else (fs1, [Effect.fsCheck filename])
          with
          | (fs2, effs) => (.error (.toolFailed "aria2c" code), fs2, pre ++ [.exec cmd] ++ effs)
  else if downloader_choice = "requests" then
    match oracle.req with
    | .preFail is404 =>
        match removeIfExists filename oracle.removeOk fs with
        | (fs2, effs) =>
            (.error (if is404 then .blobNotFound404 else .requestFailed), fs2,
             pre ++ [.netGet url] ++ effs)
    | .jsonBody errMsg =>
        (match errMsg with
         | some m => (.error (.serverJsonError m), fs, pre ++ [.netGet url])
         | none => (.error .serverJsonUnparsable, fs, pre ++ [.netGet url]))
    | .midStreamFail =>
        let fs1 := fsAdd filename fs
        match removeIfExists filename oracle.removeOk fs1 with
        | (fs2, effs) =>
            (.error .requestFailed, fs2, pre ++ [.netGet url, .fsWrite filename] ++ effs)
    | .streamOk => (.ok (), fsAdd filename fs, pre ++ [.netGet url, .fsWrite filename])
  else (.error (.unknownChoice downloader_choice), fs, pre)

/-- Outcome of the download part of `main` (source lines 278-293). -/
inductive MainOutcome where
  | cancelled
  | completed
  | failed (e : DlError)
deriving DecidableEq

/-- Source lines 278-293: the overwrite gate of `main` followed by the
call to `download_model`.  `overwrite_answer` is the raw prompt answer
read when the destination exists (compared via `.strip().lower()`
against "y"); when the destination does not exist the prompt is never
shown and its value is irrelevant. -/
def main_download_phase (model_name digest_hash filename downloader_choice
    overwrite_answer : String) (oracle : DlOracle) (fs : FS) :
    MainOutcome × FS × List Effect :=
  if fsHas filename fs then
    if lowerStr (stripEnds overwrite_answer) = "y" then
      let step :=
        if downloader_choice = "axel" then
          if oracle.removeOk then
            (fsRemove filename fs,
             [Effect.fsDel filename,
              Effect.printMsg ("Removed existing file " ++ filename ++
                " to ensure axel overwrites correctly.")])
          else (fs, [Effect.fsDel filename,
                     Effect.printMsg ("Warning: Could not remove existing file " ++ filename ++ ".")])
        else (fs, ([] : List Effect))
      match step with
      | (fs1, effs1) =>
          match download_model model_name digest_hash filename downloader_choice true oracle fs1 with
          | (.ok _, fs2, effs2) => (.completed, fs2, .fsCheck filename :: (effs1 ++ effs2))
          | (.error e, fs2, effs2) => (.failed e, fs2, .fsCheck filename :: (effs1 ++ effs2))
    else
      (.cancelled, fs, [.fsCheck filename, .printMsg "Download cancelled by user (file exists)."])
  else
    match download_model model_name digest_hash filename downloader_choice false oracle fs with
    | (.ok _, fs2, effs2) => (.completed, fs2, .fsCheck filename :: effs2)
    | (.error e, fs2, effs2) => (.failed e, fs2, .fsCheck filename :: effs2)

/-- Effects that are a network request or a console print. -/
def netOrPrint (e : Effect) : Prop := (∃ u, e = .netGet u) ∨ (∃ m, e = .printMsg m)

theorem configPhase_effects (n cdg : String) (cf : ConfigFetch) (cd : ConfigData) :
    ∀ e ∈ (configPhase n cdg cf cd).2, netOrPrint e := by
  cases cf <;> simp [configPhase, netOrPrint]

theorem secondaryPhase_effects (n : String) (m : Manifest) (cf : ConfigFetch)
    (cd : ConfigData) (d0 : Option String) :
    ∀ e ∈ (secondaryPhase n m cf cd d0).2, netOrPrint e := by
  unfold secondaryPhase
  split
  · cases hmc : m.config with
    | none => simp
    | some mc =>
      cases hdg : mc.digest with
      | none => simp [hdg]
      | some cdg =>
        have h := configPhase_effects n cdg cf cd
        cases hcp : configPhase n cdg cf cd with
        | mk r effs =>
          rw [hcp] at h
          cases r with
          | error e => simp only [hdg, hcp]; simpa using h
          | ok p =>
            cases p with
            | mk cd1 dg => simp only [hdg, hcp]; simpa using h
  · simp

theorem tertiaryPhase_effects (m : Manifest) (d1 : Option String) :
    ∀ e ∈ (tertiaryPhase m d1).2, netOrPrint e := by
  unfold tertiaryPhase
  split
  · cases hl : m.layers with
    | none => simp
    | some L =>
      cases L with
      | nil => simp
      | cons l ls =>
        cases hd : l.digest with
        | none => simp [hd]
        | some d => simp [hd, netOrPrint]
  · simp

theorem quantInfer_effects (t : String) (cd : ConfigData) :
    ∀ e ∈ (quantInfer t cd).2, netOrPrint e := by
  unfold quantInfer netOrPrint
  split
  · split <;> simp
  · simp

theorem quantInfer_effects_shape (t : String) (cd : ConfigData) :
    (quantInfer t cd).2 = [] ∨ (quantInfer t cd).2 = [Effect.printMsg defaultQuantWarning] := by
  unfold quantInfer
  split
  · split <;> simp
  · simp

theorem finalize_effects (t : String) (d2 : Option String) (cd : ConfigData) :
    ∀ e ∈ (finalize t d2 cd).2, netOrPrint e := by
  unfold finalize
  cases d2 with
  | none => simp
  | some v =>
    by_cases hv : v = ""
    · simp [hv]
    · have h := quantInfer_effects t cd
      cases hq : quantInfer t cd with
      | mk cd2 effs =>
        rw [hq] at h
        simp only [hq, if_neg hv]
        simpa using h

theorem not_mem_fsRemove (p : String) (fs : FS) : p ∉ fsRemove p fs := by
  simp [fsRemove]

theorem not_mem_removeIfExists (p : String) (fs : FS) :
    p ∉ (removeIfExists p true fs).1 := by
  by_cases h : p ∈ fs
  · simp [removeIfExists, fsHas, h, not_mem_fsRemove]
  · simp [removeIfExists, fsHas, h]

theorem removeIfExists_effects (p : String) (rk : Bool) (fs : FS) :
    ∀ e ∈ (removeIfExists p rk fs).2, e = Effect.fsCheck p ∨ e = Effect.fsDel p := by
  unfold removeIfExists
  split
  · split <;> simp
  · simp

theorem find?_append_first {α : Type} (p : α → Bool) (pre : List α) (x : α) (post : List α)
    (hpre : ∀ y ∈ pre, p y = false) (hx : p x = true) :
    (pre ++ x :: post).find? p = some x := by
  induction pre with
  | nil => simp [List.find?_cons_of_pos _ hx]
  | cons a as ih =>
    have ha : p a = false := hpre a (by simp)
    rw [List.cons_append, List.find?_cons_of_neg _ (by simp [ha])]
    exact ih (fun y hy => hpre y (by simp [hy]))

theorem isPrefixOf_exists : ∀ {a b : List Char}, a.isPrefixOf b = true → ∃ t, b = a ++ t := by
  intro a
  induction a with
  | nil => intro b _; exact ⟨b, rfl⟩
  | cons c cs ih =>
    intro b h
    cases b with
    | nil => simp [List.isPrefixOf] at h
    | cons c2 cs2 =>
      simp only [List.isPrefixOf, Bool.and_eq_true, beq_iff_eq] at h
      obtain ⟨rfl, h2⟩ := h
      obtain ⟨t, rfl⟩ := ih h2
      exact ⟨t, rfl⟩

/-- Claim C1: for every failed download attempt, regardless of backend,
no file remains at the destination path afterwards.  A mid-stream
transport failure of the streaming (`requests`) backend, and a non-zero
exit code of the `axel` or `aria2c` backend, each raise the
corresponding download error, and — whenever the removal itself
succeeds (`removeOk = true`; a removal failure is swallowed, it never
changes the raised error) — the destination file is absent from the
resulting file system. -/
theorem c1_failed_download_leaves_no_file :
    (∀ (n d f : String) (conf : Bool) (oc : DlOracle) (fs : FS),
      oc.req = .midStreamFail →
      (download_model n d f "requests" conf oc fs).1 = .error .requestFailed ∧
      (oc.removeOk = true → f ∉ (download_model n d f "requests" conf oc fs).2.1)) ∧
    (∀ (n d f : String) (conf : Bool) (oc : DlOracle) (fs : FS) (code : Int),
      oc.ext = .exit code → code ≠ 0 →
      (download_model n d f "axel" conf oc fs).1 = .error (.toolFailed "axel" code) ∧
      (oc.removeOk = true → f ∉ (download_model n d f "axel" conf oc fs).2.1)) ∧
    (∀ (n d f : String) (conf : Bool) (oc : DlOracle) (fs : FS) (code : Int),
      oc.ext = .exit code → code ≠ 0 →
      (download_model n d f "aria2c" conf oc fs).1 = .error (.toolFailed "aria2c" code) ∧
      (oc.removeOk = true → f ∉ (download_model n d f "aria2c" conf oc fs).2.1)) := by
  refine ⟨?_, ?_, ?_⟩
  · intro n d f conf oc fs hreq
    constructor
    · simp [download_model, hreq]
    · intro hrm
      simp only [download_model, hreq]
      norm_num
      rw [hrm]
      exact not_mem_removeIfExists f (fsAdd f fs)
  · intro n d f conf oc fs code hext hcode
    constructor
    · simp [download_model, hext, hcode]
    · intro hrm
      simp only [download_model, hext]
      norm_num
      rw [if_neg hcode, hrm]
      exact not_mem_removeIfExists f _
  · intro n d f conf oc fs code hext hcode
    constructor
    · simp [download_model, hext, hcode]
    · intro hrm
      simp only [download_model, hext]
      norm_num
      rw [if_neg hcode, hrm]
      by_cases hh : f ∈ (if oc.wroteFile then fsAdd f fs else fs)
      · simp [fsHas, hh, hcode, not_mem_fsRemove]
      · simp [fsHas, hh, hcode]

/-- Claim C1 witness: the cleanup property at a concrete failing run of
each backend, with the destination initially present for `aria2c`. -/
theorem c1_witness :
    ((download_model "phi3" "abc" "out.gguf" "requests" false
        ⟨.midStreamFail, .exit 1, true, true⟩ []).1 = .error .requestFailed ∧
     "out.gguf" ∉ (download_model "phi3" "abc" "out.gguf" "requests" false
        ⟨.midStreamFail, .exit 1, true, true⟩ []).2.1) ∧
    ((download_model "phi3" "abc" "out.gguf" "axel" false
        ⟨.streamOk, .exit 2, true, true⟩ []).1 = .error (.toolFailed "axel" 2) ∧
     "out.gguf" ∉ (download_model "phi3" "abc" "out.gguf" "axel" false
        ⟨.streamOk, .exit 2, true, true⟩ []).2.1) ∧
    ((download_model "phi3" "abc" "out.gguf" "aria2c" true
        ⟨.streamOk, .exit 3, false, true⟩ ["out.gguf"]).1 = .error (.toolFailed "aria2c" 3) ∧
     "out.gguf" ∉ (download_model "phi3" "abc" "out.gguf" "aria2c" true
        ⟨.streamOk, .exit 3, false, true⟩ ["out.gguf"]).2.1) :=
  ⟨⟨(c1_failed_download_leaves_no_file.1 "phi3" "abc" "out.gguf" false
      ⟨.midStreamFail, .exit 1, true, true⟩ [] rfl).1,
    (c1_failed_download_leaves_no_file.1 "phi3" "abc" "out.gguf" false
      ⟨.midStreamFail, .exit 1, true, true⟩ [] rfl).2 rfl⟩,
   ⟨(c1_failed_download_leaves_no_file.2.1 "phi3" "abc" "out.gguf" false
      ⟨.streamOk, .exit 2, true, true⟩ [] 2 rfl (by decide)).1,
    (c1_failed_download_leaves_no_file.2.1 "phi3" "abc" "out.gguf" false
      ⟨.streamOk, .exit 2, true, true⟩ [] 2 rfl (by decide)).2 rfl⟩,
   ⟨(c1_failed_download_leaves_no_file.2.2 "phi3" "abc" "out.gguf" true
      ⟨.streamOk, .exit 3, false, true⟩ ["out.gguf"] 3 rfl (by decide)).1,
    (c1_failed_download_leaves_no_file.2.2 "phi3" "abc" "out.gguf" true
      ⟨.streamOk, .exit 3, false, true⟩ ["out.gguf"] 3 rfl (by decide)).2 rfl⟩⟩

/-- Claim C4: when the destination exists and the overwrite prompt is
answered with anything other than yes, the run is cancelled with the
file system unchanged — no network request, no process spawn, no file
write or delete appears in the trace. -/
theorem c4_overwrite_not_confirmed_aborts
    (n d f dlc ans : String) (oc : DlOracle) (fs : FS)
    (hex : fsHas f fs = true)
    (hno : lowerStr (stripEnds ans) ≠ "y") :
    (main_download_phase n d f dlc ans oc fs).1 = .cancelled ∧
    (main_download_phase n d f dlc ans oc fs).2.1 = fs ∧
    ∀ e ∈ (main_download_phase n d f dlc ans oc fs).2.2,
      (∀ u, e ≠ .netGet u) ∧ (∀ c, e ≠ .exec c) ∧
      (∀ p, e ≠ .fsWrite p) ∧ (∀ p, e ≠ .fsDel p) := by
  refine ⟨?_, ?_, ?_⟩ <;>
    simp [main_download_phase, hex, hno]

/-- Claim C4 witness: a concrete run with the destination present and
the prompt answered with a stray-whitespace "n". -/
theorem c4_witness :
    (main_download_phase "phi3" "abc" "out.gguf" "requests" " n "
      ⟨.streamOk, .exit 0, false, true⟩ ["out.gguf"]).1 = .cancelled ∧
    (main_download_phase "phi3" "abc" "out.gguf" "requests" " n "
      ⟨.streamOk, .exit 0, false, true⟩ ["out.gguf"]).2.1 = ["out.gguf"] ∧
    ∀ e ∈ (main_download_phase "phi3" "abc" "out.gguf" "requests" " n "
      ⟨.streamOk, .exit 0, false, true⟩ ["out.gguf"]).2.2,
      (∀ u, e ≠ .netGet u) ∧ (∀ c, e ≠ .exec c) ∧
      (∀ p, e ≠ .fsWrite p) ∧ (∀ p, e ≠ .fsDel p) :=
  c4_overwrite_not_confirmed_aborts "phi3" "abc" "out.gguf" "requests" " n "
    ⟨.streamOk, .exit 0, false, true⟩ ["out.gguf"] (by decide) (by decide)

/-- Claim C2: when the layers contain a model-weights layer, resolution
returns the digest of the first such layer with the algorithm prefix
stripped; the config-blob and first-layer fallback steps are never
consulted — the whole result is independent of the config-fetch oracle
(even of a fatally failing one) and the only network request in the
trace is the manifest request. -/
theorem c2_model_layer_digest_wins
    (n t : String) (m : Manifest) (cf : ConfigFetch) (L : List Layer)
    (layer : Layer) (d : String)
    (hL : m.layers = some L)
    (hfind : L.find? isModelLayer = some layer)
    (hd : layer.digest = some d)
    (hne : stripAlg d ≠ "") :
    (∃ det, (get_model_details n t (.ok m) cf).1 = .ok det ∧ det.digest = stripAlg d) ∧
    get_model_details n t (.ok m) cf = get_model_details n t (.ok m) (.httpError false) ∧
    (∀ u, Effect.netGet u ∈ (get_model_details n t (.ok m) cf).2 → u = manifestUrl n t) := by
  have hps : primaryScan m = .ok (some (stripAlg d)) := by
    simp [primaryScan, hL, hfind, hd]
  have hfalsy : pyFalsy (some (stripAlg d)) = false := by
    simp [pyFalsy, hne]
  have hsec : ∀ cf' : ConfigFetch,
      secondaryPhase n m cf' ⟨n, t, "unknown_quant"⟩ (some (stripAlg d)) =
        (.ok (⟨n, t, "unknown_quant"⟩, some (stripAlg d)), []) := by
    intro cf'
    simp [secondaryPhase, hfalsy]
  have hter : tertiaryPhase m (some (stripAlg d)) = (.ok (some (stripAlg d)), []) := by
    simp [tertiaryPhase, hfalsy]
  have hfin : finalize t (some (stripAlg d)) ⟨n, t, "unknown_quant"⟩ =
      (.ok ⟨stripAlg d, (quantInfer t ⟨n, t, "unknown_quant"⟩).1.model_family,
            (quantInfer t ⟨n, t, "unknown_quant"⟩).1.model_type,
            (quantInfer t ⟨n, t, "unknown_quant"⟩).1.file_type⟩,
       (quantInfer t ⟨n, t, "unknown_quant"⟩).2) := by
    unfold finalize
    cases hq : quantInfer t ⟨n, t, "unknown_quant"⟩ with
    | mk cd2 effs => simp [hq, if_neg hne]
  have hres : ∀ cf' : ConfigFetch,
      get_model_details n t (.ok m) cf' =
        (.ok ⟨stripAlg d, (quantInfer t ⟨n, t, "unknown_quant"⟩).1.model_family,
              (quantInfer t ⟨n, t, "unknown_quant"⟩).1.model_type,
              (quantInfer t ⟨n, t, "unknown_quant"⟩).1.file_type⟩,
         .netGet (manifestUrl n t) :: (quantInfer t ⟨n, t, "unknown_quant"⟩).2) := by
    intro cf'
    simp only [get_model_details, hps, hsec, hter, hfin, List.nil_append]
  refine ⟨⟨⟨stripAlg d, (quantInfer t ⟨n, t, "unknown_quant"⟩).1.model_family,
            (quantInfer t ⟨n, t, "unknown_quant"⟩).1.model_type,
            (quantInfer t ⟨n, t, "unknown_quant"⟩).1.file_type⟩, ?_, rfl⟩, ?_, ?_⟩
  · rw [hres cf]
  · rw [hres cf, hres (.httpError false)]
  · rw [hres cf]
    intro u hu
    simp at hu
    rcases hu with hu | hu
    · exact hu
    · rcases quantInfer_effects_shape t ⟨n, t, "unknown_quant"⟩ with hq | hq <;>
        simp [hq] at hu

/-- Claim C2 witness: a two-layer manifest whose second layer is the
model-weights layer, with a config digest present and a config-fetch
oracle that would fatally fail if consulted. -/
theorem c2_witness :
    (∃ det, (get_model_details "phi3" "latest"
        (.ok ⟨some [⟨some "application/vnd.ollama.image.license", some "sha256:lic"⟩,
                    ⟨some "application/vnd.ollama.image.model", some "sha256:abc"⟩],
              some ⟨some "sha256:cfg"⟩⟩)
        (.httpError false)).1 = .ok det ∧ det.digest = stripAlg "sha256:abc") ∧
    get_model_details "phi3" "latest"
        (.ok ⟨some [⟨some "application/vnd.ollama.image.license", some "sha256:lic"⟩,
                    ⟨some "application/vnd.ollama.image.model", some "sha256:abc"⟩],
              some ⟨some "sha256:cfg"⟩⟩)
        (.httpError false) =
      get_model_details "phi3" "latest"
        (.ok ⟨some [⟨some "application/vnd.ollama.image.license", some "sha256:lic"⟩,
                    ⟨some "application/vnd.ollama.image.model", some "sha256:abc"⟩],
              some ⟨some "sha256:cfg"⟩⟩)
        (.httpError false) ∧
    (∀ u, Effect.netGet u ∈ (get_model_details "phi3" "latest"
        (.ok ⟨some [⟨some "application/vnd.ollama.image.license", some "sha256:lic"⟩,
                    ⟨some "application/vnd.ollama.image.model", some "sha256:abc"⟩],
              some ⟨some "sha256:cfg"⟩⟩)
        (.httpError false)).2 → u = manifestUrl "phi3" "latest") :=
  c2_model_layer_digest_wins "phi3" "latest"
    ⟨some [⟨some "application/vnd.ollama.image.license", some "sha256:lic"⟩,
           ⟨some "application/vnd.ollama.image.model", some "sha256:abc"⟩],
     some ⟨some "sha256:cfg"⟩⟩
    (.httpError false)
    [⟨some "application/vnd.ollama.image.license", some "sha256:lic"⟩,
     ⟨some "application/vnd.ollama.image.model", some "sha256:abc"⟩]
    ⟨some "application/vnd.ollama.image.model", some "sha256:abc"⟩
    "sha256:abc" rfl (by decide) rfl (by decide)

/-- Claim C5: with no model-weights layer and a config blob whose
root-filesystem descriptor has a non-empty diff-id list, resolution
returns the first diff-id with the algorithm prefix stripped. -/
theorem c5_config_diff_id_digest
    (n t : String) (m : Manifest) (cfg : ConfigBlob) (cdg d : String) (ds : List String)
    (hscan : (m.layers.getD []).find? isModelLayer = none)
    (hcfg : m.config = some ⟨some cdg⟩)
    (hdiff : cfg.diff_ids = some (d :: ds))
    (hne : stripAlg d ≠ "") :
    ∃ det, (get_model_details n t (.ok m) (.ok cfg)).1 = .ok det ∧ det.digest = stripAlg d := by
  have hps : primaryScan m = .ok none := by
    simp [primaryScan, hscan]
  have hac : (applyConfig cfg ⟨n, t, "unknown_quant"⟩).2 = some (stripAlg d) := by
    simp [applyConfig, hdiff]
  have hsec : secondaryPhase n m (.ok cfg) ⟨n, t, "unknown_quant"⟩ none =
      (.ok ((applyConfig cfg ⟨n, t, "unknown_quant"⟩).1, some (stripAlg d)),
       [.netGet (configUrl n cdg)]) := by
    unfold secondaryPhase
    simp only [pyFalsy, hcfg]
    cases hap : applyConfig cfg ⟨n, t, "unknown_quant"⟩ with
    | mk cd1 dg =>
      rw [hap] at hac
      simp only [Prod.snd] at hac
      simp [configPhase, hap, hac]
  have hfalsy : pyFalsy (some (stripAlg d)) = false := by
    simp [pyFalsy, hne]
  have hter : tertiaryPhase m (some (stripAlg d)) = (.ok (some (stripAlg d)), []) := by
    simp [tertiaryPhase, hfalsy]
  have hfin : finalize t (some (stripAlg d)) (applyConfig cfg ⟨n, t, "unknown_quant"⟩).1 =
      (.ok ⟨stripAlg d,
            (quantInfer t (applyConfig cfg ⟨n, t, "unknown_quant"⟩).1).1.model_family,
            (quantInfer t (applyConfig cfg ⟨n, t, "unknown_quant"⟩).1).1.model_type,
            (quantInfer t (applyConfig cfg ⟨n, t, "unknown_quant"⟩).1).1.file_type⟩,
       (quantInfer t (applyConfig cfg ⟨n, t, "unknown_quant"⟩).1).2) := by
    unfold finalize
    cases hq : quantInfer t (applyConfig cfg ⟨n, t, "unknown_quant"⟩).1 with
    | mk cd2 effs => simp [hq, if_neg hne]
  have hres : get_model_details n t (.ok m) (.ok cfg) =
      (.ok ⟨stripAlg d,
            (quantInfer t (applyConfig cfg ⟨n, t, "unknown_quant"⟩).1).1.model_family,
            (quantInfer t (applyConfig cfg ⟨n, t, "unknown_quant"⟩).1).1.model_type,
            (quantInfer t (applyConfig cfg ⟨n, t, "unknown_quant"⟩).1).1.file_type⟩,
       .netGet (manifestUrl n t) :: .netGet (configUrl n cdg) ::
         (quantInfer t (applyConfig cfg ⟨n, t, "unknown_quant"⟩).1).2) := by
    simp only [get_model_details, hps, hsec, hter, hfin]
    simp
  refine ⟨⟨stripAlg d,
          (quantInfer t (applyConfig cfg ⟨n, t, "unknown_quant"⟩).1).1.model_family,
          (quantInfer t (applyConfig cfg ⟨n, t, "unknown_quant"⟩).1).1.model_type,
          (quantInfer t (applyConfig cfg ⟨n, t, "unknown_quant"⟩).1).1.file_type⟩, ?_, rfl⟩
  rw [hres]

/-- Claim C5 witness: the concrete scenario of the spec, with
`rootfs.diff_ids` the one-element list of the prefixed digest
"sha256:abc123". -/
theorem c5_witness :
    ∃ det, (get_model_details "phi3" "latest"
        (.ok ⟨some [⟨some "application/vnd.ollama.image.license", some "sha256:lic"⟩],
              some ⟨some "sha256:cfgdigest"⟩⟩)
        (.ok ⟨none, none, none, none, some ["sha256:abc123"]⟩)).1 = .ok det ∧
      det.digest = stripAlg "sha256:abc123" :=
  c5_config_diff_id_digest "phi3" "latest"
    ⟨some [⟨some "application/vnd.ollama.image.license", some "sha256:lic"⟩],
     some ⟨some "sha256:cfgdigest"⟩⟩
    ⟨none, none, none, none, some ["sha256:abc123"]⟩
    "sha256:cfgdigest" "sha256:abc123" [] (by decide) rfl rfl (by decide)

/-- Claim C7: with no digest from the primary scan or the secondary
(config) phase and a non-empty layers list, resolution takes the first
layer digest (prefix stripped) and prints the unverified-fallback
warning; when the first layer has no digest field it instead fails with
the resolution error of source line 83. -/
theorem c7_first_layer_fallback
    (n t : String) (m : Manifest) (cf : ConfigFetch) (cd1 : ConfigData)
    (d1 : Option String) (effs1 : List Effect) (l : Layer) (ls : List Layer)
    (hscan : (m.layers.getD []).find? isModelLayer = none)
    (hsec : secondaryPhase n m cf ⟨n, t, "unknown_quant"⟩ none = (.ok (cd1, d1), effs1))
    (hd1 : pyFalsy d1 = true)
    (hlayers : m.layers = some (l :: ls)) :
    (∀ d, l.digest = some d → stripAlg d ≠ "" →
      (∃ det, (get_model_details n t (.ok m) cf).1 = .ok det ∧ det.digest = stripAlg d) ∧
      Effect.printMsg fallbackWarning ∈ (get_model_details n t (.ok m) cf).2) ∧
    (l.digest = none →
      (get_model_details n t (.ok m) cf).1 = .error (.structureError firstLayerNoDigestMsg)) := by
  have hps : primaryScan m = .ok none := by
    simp [primaryScan, hscan]
  constructor
  · intro d hd hne
    have hter : tertiaryPhase m d1 = (.ok (some (stripAlg d)), [.printMsg fallbackWarning]) := by
      unfold tertiaryPhase
      simp [hd1, hlayers, hd]
    have hfin : finalize t (some (stripAlg d)) cd1 =
        (.ok ⟨stripAlg d, (quantInfer t cd1).1.model_family,
              (quantInfer t cd1).1.model_type, (quantInfer t cd1).1.file_type⟩,
         (quantInfer t cd1).2) := by
      unfold finalize
      cases hq : quantInfer t cd1 with
      | mk cd2 effs => simp [hq, if_neg hne]
    have hres : get_model_details n t (.ok m) cf =
        (.ok ⟨stripAlg d, (quantInfer t cd1).1.model_family,
              (quantInfer t cd1).1.model_type, (quantInfer t cd1).1.file_type⟩,
         .netGet (manifestUrl n t) ::
           (effs1 ++ (.printMsg fallbackWarning :: (quantInfer t cd1).2))) := by
      simp only [get_model_details, hps, hsec, hter, hfin]
      simp
    refine ⟨⟨⟨stripAlg d, (quantInfer t cd1).1.model_family,
            (quantInfer t cd1).1.model_type, (quantInfer t cd1).1.file_type⟩, ?_, rfl⟩, ?_⟩
    · rw [hres]
    · rw [hres]
      simp
  · intro hd
    have hter : tertiaryPhase m d1 = (.error firstLayerNoDigestMsg, []) := by
      unfold tertiaryPhase
      simp [hd1, hlayers, hd]
    simp only [get_model_details, hps, hsec, hter]

/-- Claim C7 witness: a manifest whose single layer is not the
model-weights layer and has a digest, with no config object, so that
the secondary phase yields nothing and the fallback fires. -/
theorem c7_witness :
    (∃ det, (get_model_details "phi3" "latest"
        (.ok ⟨some [⟨some "application/vnd.ollama.image.license", some "sha256:first"⟩], none⟩)
        .badJson).1 = .ok det ∧ det.digest = stripAlg "sha256:first") ∧
    Effect.printMsg fallbackWarning ∈ (get_model_details "phi3" "latest"
        (.ok ⟨some [⟨some "application/vnd.ollama.image.license", some "sha256:first"⟩], none⟩)
        .badJson).2 :=
  (c7_first_layer_fallback "phi3" "latest"
    ⟨some [⟨some "application/vnd.ollama.image.license", some "sha256:first"⟩], none⟩
    .badJson ⟨"phi3", "latest", "unknown_quant"⟩ none []
    ⟨some "application/vnd.ollama.image.license", some "sha256:first"⟩ []
    (by decide) (by decide) rfl rfl).1 "sha256:first" rfl (by decide)

/-- Claim C8: when no digest is obtainable from any step — layers
absent or empty and no config digest — resolution fails with the
no-digest resolution error of source line 86, for every state of the
config-fetch oracle. -/
theorem c8_no_digest_resolution_error
    (n t : String) (m : Manifest) (cf : ConfigFetch)
    (hlayers : m.layers = none ∨ m.layers = some [])
    (hcfg : m.config = none ∨ m.config = some ⟨none⟩) :
    (get_model_details n t (.ok m) cf).1 = .error (.structureError noDigestMsg) := by
  have hld : m.layers.getD [] = [] := by
    rcases hlayers with h | h <;> simp [h]
  have hps : primaryScan m = .ok none := by
    simp [primaryScan, hld]
  have hsec : secondaryPhase n m cf ⟨n, t, "unknown_quant"⟩ none =
      (.ok (⟨n, t, "unknown_quant"⟩, none), []) := by
    unfold secondaryPhase
    rcases hcfg with h | h <;> simp [pyFalsy, h]
  have hter : tertiaryPhase m none = (.ok none, []) := by
    unfold tertiaryPhase
    rcases hlayers with h | h <;> simp [pyFalsy, h]
  have hfin : finalize t none ⟨n, t, "unknown_quant"⟩ = (.error noDigestMsg, []) := by
    simp [finalize]
  simp only [get_model_details, hps, hsec, hter, hfin]

/-- Claim C8 witness: the zero-layer manifest with no config. -/
theorem c8_witness :
    (get_model_details "phi3" "latest" (.ok ⟨some [], none⟩) .badJson).1 =
      .error (.structureError noDigestMsg) :=
  c8_no_digest_resolution_error "phi3" "latest" ⟨some [], none⟩ .badJson
    (Or.inr rfl) (Or.inl rfl)

/-- Claim C6: while `file_type` is unset (empty) or the unknown
sentinel, quantization is inferred from the lower-cased tag by the
ordered pattern table: the first entry one of whose patterns occurs in
the tag wins and is upper-cased into `file_type`; if no entry matches,
the default is "Q4_0" together with a warning.  Concretely, tag
"3b-instruct-q4_k_m" infers "Q4_K_M" and tag "latest" infers the
default "Q4_0" with the warning. -/
theorem c6_quantization_inference :
    (∀ (cd : ConfigData) (tag : String) (pre : List (String × List String))
       (q : String) (ps : List String) (post : List (String × List String)),
      (cd.file_type = "unknown_quant" ∨ cd.file_type = "") →
      quant_patterns = pre ++ (q, ps) :: post →
      (∀ e ∈ pre, entryMatches (lowerStr tag) e = false) →
      entryMatches (lowerStr tag) (q, ps) = true →
      (quantInfer tag cd).1.file_type = upperStr q) ∧
    (∀ (cd : ConfigData) (tag : String),
      (cd.file_type = "unknown_quant" ∨ cd.file_type = "") →
      findQuantCode (lowerStr tag) = none →
      (quantInfer tag cd).1.file_type = "Q4_0" ∧
      Effect.printMsg defaultQuantWarning ∈ (quantInfer tag cd).2) ∧
    (∀ cd : ConfigData, cd.file_type = "unknown_quant" →
      (quantInfer "3b-instruct-q4_k_m" cd).1.file_type = "Q4_K_M" ∧
      (quantInfer "latest" cd).1.file_type = "Q4_0" ∧
      Effect.printMsg defaultQuantWarning ∈ (quantInfer "latest" cd).2) := by
  refine ⟨?_, ?_, ?_⟩
  · intro cd tag pre q ps post hft heq hpre hq
    have hfind : findQuantCode (lowerStr tag) = some q := by
      unfold findQuantCode
      rw [heq, find?_append_first (entryMatches (lowerStr tag)) pre (q, ps) post hpre hq]
      rfl
    simp [quantInfer, hft, hfind]
  · intro cd tag hft hnone
    simp [quantInfer, hft, hnone]
  · intro cd hft
    have h1 : findQuantCode (lowerStr "3b-instruct-q4_k_m") = some "q4_k_m" := by decide
    have h2 : findQuantCode (lowerStr "latest") = none := by decide
    have hu : upperStr "q4_k_m" = "Q4_K_M" := by decide
    refine ⟨?_, ?_, ?_⟩ <;> simp [quantInfer, hft, h1, h2, hu]

/-- Claim C6 witness: the table split around the "q4_k_m" entry for tag
"3b-instruct-q4_k_m": every earlier entry fails to match and the
"q4_k_m" entry matches, so its upper-cased code is the result. -/
theorem c6_witness :
    (quantInfer "3b-instruct-q4_k_m" ⟨"phi3", "tag", "unknown_quant"⟩).1.file_type =
      upperStr "q4_k_m" :=
  c6_quantization_inference.1 ⟨"phi3", "tag", "unknown_quant"⟩ "3b-instruct-q4_k_m"
    [("q4_0", ["q4_0"]), ("q4_1", ["q4_1"]), ("q5_0", ["q5_0"]), ("q5_1", ["q5_1"]),
     ("q8_0", ["q8_0"]), ("q2_k", ["q2_k"]), ("q3_k_s", ["q3_k_s"]), ("q3_k_m", ["q3_k_m"]),
     ("q3_k_l", ["q3_k_l"]), ("q4_k_s", ["q4_k_s"])]
    "q4_k_m" ["q4_k_m"]
    [("q5_k_s", ["q5_k_s"]), ("q5_k_m", ["q5_k_m"]), ("q6_k", ["q6_k"]), ("fp16", ["f16", "fp16"])]
    (Or.inl rfl) rfl (by decide) (by decide)

/-- Claim C9: the blob URL appends to the family's blob endpoint a
digest argument of the form sha256-prefixed-hex — the digest itself
when it already starts with "sha256:", the re-prefixed digest
otherwise — and the streaming backend requests exactly that URL (it is
in the trace, and every network request of the trace is that URL). -/
theorem c9_blob_url_form (n d : String) :
    (∃ hex, blob_digest_arg d = "sha256:" ++ hex ∧ (hex = d ∨ d = "sha256:" ++ hex) ∧
      blobUrl n d =
        "https://registry.ollama.ai/v2/library/" ++ n ++ "/blobs/" ++ ("sha256:" ++ hex)) ∧
    (∀ (f : String) (conf : Bool) (oc : DlOracle) (fs : FS),
      Effect.netGet (blobUrl n d) ∈ (download_model n d f "requests" conf oc fs).2.2 ∧
      ∀ u, Effect.netGet u ∈ (download_model n d f "requests" conf oc fs).2.2 →
        u = blobUrl n d) := by
  constructor
  · by_cases h : strStartsWith d "sha256:" = true
    · unfold strStartsWith at h
      obtain ⟨tl, htl⟩ := isPrefixOf_exists h
      have hd : d = "sha256:" ++ String.mk tl := by
        apply String.ext
        simp [String.data_append, htl]
      refine ⟨String.mk tl, ?_, Or.inr hd, ?_⟩
      · rw [blob_digest_arg, if_pos]
        · exact hd
        · exact h
      · rw [blobUrl, blob_digest_arg, if_pos]
        · rw [hd]
        · exact h
    · refine ⟨d, ?_, Or.inl rfl, ?_⟩
      · rw [blob_digest_arg, if_neg h]
      · rw [blobUrl, blob_digest_arg, if_neg h]
  · intro f conf oc fs
    have hre := removeIfExists_effects f oc.removeOk
    cases hr : oc.req with
    | preFail is404 =>
      cases hrei : removeIfExists f oc.removeOk fs with
      | mk fs2 effs =>
        have h2 := hre fs
        rw [hrei] at h2
        constructor
        · simp [download_model, hr, hrei]
        · intro u hu
          simp [download_model, hr, hrei] at hu
          rcases hu with hu | hu
          · exact hu
          · rcases h2 _ hu with h | h <;> simp at h
    | jsonBody msg =>
      cases msg with
      | some msg =>
        constructor
        · simp [download_model, hr]
        · intro u hu
          simp [download_model, hr] at hu
          exact hu
      | none =>
        constructor
        · simp [download_model, hr]
        · intro u hu
          simp [download_model, hr] at hu
          exact hu
    | midStreamFail =>
      cases hrei : removeIfExists f oc.removeOk (fsAdd f fs) with
      | mk fs2 effs =>
        have h2 := hre (fsAdd f fs)
        rw [hrei] at h2
        constructor
        · simp [download_model, hr, hrei]
        · intro u hu
          simp [download_model, hr, hrei] at hu
          rcases hu with hu | hu
          · exact hu
          · rcases h2 _ hu with h | h <;> simp at h
    | streamOk =>
      constructor
      · simp [download_model, hr]
      · intro u hu
        simp [download_model, hr] at hu
        exact hu

/-- Claim C9 witness: the blob-URL shape and single-request property at
a concrete unprefixed digest and a concrete successful run. -/
theorem c9_witness :
    (∃ hex, blob_digest_arg "abc" = "sha256:" ++ hex ∧
      (hex = "abc" ∨ ("abc" : String) = "sha256:" ++ hex) ∧
      blobUrl "phi3" "abc" =
        "https://registry.ollama.ai/v2/library/" ++ "phi3" ++ "/blobs/" ++ ("sha256:" ++ hex)) ∧
    (∀ (f : String) (conf : Bool) (oc : DlOracle) (fs : FS),
      Effect.netGet (blobUrl "phi3" "abc") ∈
        (download_model "phi3" "abc" f "requests" conf oc fs).2.2 ∧
      ∀ u, Effect.netGet u ∈ (download_model "phi3" "abc" f "requests" conf oc fs).2.2 →
        u = blobUrl "phi3" "abc") :=
  c9_blob_url_form "phi3" "abc"

/-- Claim C10: resolution touches no file: every effect in the trace of
`get_model_details`, on every path — success, 404, transport failure,
parse failure or structural failure — is a network request or a console
print; no file is created, modified or deleted. -/
theorem c10_resolution_no_fs_effects (n t : String) (mf : ManifestFetch) (cf : ConfigFetch) :
    ∀ e ∈ (get_model_details n t mf cf).2, netOrPrint e := by
  unfold get_model_details
  cases mf with
  | httpError b => simp [netOrPrint]
  | badJson => simp [netOrPrint]
  | ok manifest =>
    cases hp : primaryScan manifest with
    | error msg => simp [hp, netOrPrint]
    | ok d0 =>
      have h1 := secondaryPhase_effects n manifest cf ⟨n, t, "unknown_quant"⟩ d0
      cases hs : secondaryPhase n manifest cf ⟨n, t, "unknown_quant"⟩ d0 with
      | mk r1 effs1 =>
        rw [hs] at h1
        cases r1 with
        | error e =>
          simp only [hp, hs]
          intro x hx
          simp at hx
          rcases hx with hx | hx
          · exact Or.inl ⟨_, hx⟩
          · exact h1 x hx
        | ok p =>
          cases p with
          | mk cd1 d1 =>
            have h2 := tertiaryPhase_effects manifest d1
            cases ht : tertiaryPhase manifest d1 with
            | mk r2 effs2 =>
              rw [ht] at h2
              cases r2 with
              | error msg =>
                simp only [hp, hs, ht]
                intro x hx
                simp at hx
                rcases hx with hx | hx | hx
                · exact Or.inl ⟨_, hx⟩
                · exact h1 x hx
                · exact h2 x hx
              | ok d2 =>
                have h3 := finalize_effects t d2 cd1
                cases hf : finalize t d2 cd1 with
                | mk r3 effs3 =>
                  rw [hf] at h3
                  cases r3 with
                  | error msg =>
                    simp only [hp, hs, ht, hf]
                    intro x hx
                    simp at hx
                    rcases hx with hx | hx | hx | hx
                    · exact Or.inl ⟨_, hx⟩
                    · exact h1 x hx
                    · exact h2 x hx
                    · exact h3 x hx
                  | ok det =>
                    simp only [hp, hs, ht, hf]
                    intro x hx
                    simp at hx
                    rcases hx with hx | hx | hx | hx
                    · exact Or.inl ⟨_, hx⟩
                    · exact h1 x hx
                    · exact h2 x hx
                    · exact h3 x hx

/-- Claim C10 witness: the single effect of a concrete failing
resolution is a network request or print. -/
theorem c10_witness :
    netOrPrint (Effect.netGet (manifestUrl "phi3" "latest")) :=
  c10_resolution_no_fs_effects "phi3" "latest" (.httpError true) .badJson
    (Effect.netGet (manifestUrl "phi3" "latest")) (by decide)

/-- Claim C3 (code bug): the config-blob request of source lines 60-61
sits outside the inner `try` of lines 62-76, so a transport failure of
that request propagates to the outer handler and aborts resolution with
a fatal error — the inner warning handler for request failures (lines
75-76) is unreachable.  On the very same manifest, a parse failure of
the config-blob body is downgraded to a warning and resolution
continues to the first-layer fallback and succeeds, exhibiting the
asymmetry: the first conjunct shows the fatal network failure, the
second the non-fatal parse failure with the downgrade warning in the
trace. -/
theorem c3_config_fetch_failure_fatal :
    (get_model_details "phi3" "latest"
      (.ok ⟨some [⟨some "application/vnd.ollama.image.license", some "sha256:aaa"⟩],
            some ⟨some "sha256:cfg"⟩⟩)
      (.httpError false)).1 = .error .requestFailed ∧
    (get_model_details "phi3" "latest"
      (.ok ⟨some [⟨some "application/vnd.ollama.image.license", some "sha256:aaa"⟩],
            some ⟨some "sha256:cfg"⟩⟩)
      .badJson).1 = .ok ⟨"aaa", "phi3", "latest", "Q4_0"⟩ ∧
    Effect.printMsg ("Warning: Could not parse config blob from " ++
        configUrl "phi3" "sha256:cfg" ++ " as JSON.") ∈
      (get_model_details "phi3" "latest"
        (.ok ⟨some [⟨some "application/vnd.ollama.image.license", some "sha256:aaa"⟩],
              some ⟨some "sha256:cfg"⟩⟩)
        .badJson).2 := by
  refine ⟨by decide, by decide, by decide⟩

end Gguf
